import Mathlib

/-!
Shallow embedding of the mirrord session-and-transport bridge:
the connection wrapper, handshake verifier, session negotiator and
internal-proxy lifecycle, translated from
`mirrord/operator/src/client.rs` and `mirrord/cli/src/internal_proxy.rs`.

Asynchronous loops are embedded as fold functions over explicit event
lists; every external call (kube API, credential store, transport send)
is resolved through an environment record supplying its result, and the
observable effects (transport frames written, inbound messages
synthesized, operations performed) are collected in traces.
-/

namespace Mirrord

/-- Semantic version (`semver::Version`) as used for protocol negotiation.
Only the numeric triple is modelled; the protocol versions exchanged here
carry no pre-release or build metadata. -/
structure Version where
  major : Nat
  minor : Nat
  patch : Nat
  deriving DecidableEq, Repr

/-- Lexicographic strict order on versions, as `semver::Version`'s `Ord`. -/
def Version.ltb (a b : Version) : Bool :=
  a.major < b.major ||
    (a.major == b.major &&
      (a.minor < b.minor || (a.minor == b.minor && a.patch < b.patch)))

/-- `Ord::min(self, other)`: returns `other` when `other < self`, else `self`.
In `ConnectionWrapper::start` this is called as
`operator_protocol_version.min(&version)`. -/
def Version.min (a b : Version) : Version :=
  if Version.ltb b a then b else a

/-- Split a character list at every `'.'`. -/
def splitDot : List Char → List (List Char)
  | [] => [[]]
  | c :: rest =>
      let r := splitDot rest
      if c = '.' then [] :: r
      else
        match r with
        | [] => [[c]]
        | h :: t => (c :: h) :: t

/-- Parse a non-empty all-digit character list as a decimal number. -/
def natOfDigits (cs : List Char) : Option Nat :=
  if cs ≠ [] ∧ cs.all (·.isDigit) then
    some (cs.foldl (fun acc c => acc * 10 + (c.toNat - 48)) 0)
  else none

/-- Parse a plain `major.minor.patch` version string (the shape of the
hardcoded `"1.2.1"` literal passed to `str::parse::<semver::Version>`). -/
def Version.parseSimple (s : String) : Option Version :=
  match (splitDot s.data).map natOfDigits with
  | [some a, some b, some c] => some ⟨a, b, c⟩
  | _ => none

/-- Modelled from the spec: `mirrord_protocol::LogLevel` (the protocol crate
is outside the provided sources); the two levels matched in `ping`. -/
inductive LogLevel where
  | error
  | warn
  deriving DecidableEq, Repr

/-- Modelled from the spec: `mirrord_protocol::LogMessage` payload. -/
structure LogMessage where
  level : LogLevel
  message : String
  deriving DecidableEq, Repr

/-- Modelled from the spec: outbound client messages; the spec fixes `Ping`
and `SwitchProtocolVersion(version)` and leaves the rest opaque payload. -/
inductive ClientMessage where
  | ping
  | switchProtocolVersion (v : Version)
  | otherClient (payload : Nat)
  deriving DecidableEq, Repr

/-- Modelled from the spec: inbound daemon messages; the spec fixes `Pong`,
`LogMessage` and `SwitchProtocolVersionResponse(version)` and leaves the
rest opaque payload. -/
inductive DaemonMessage where
  | pong
  | logMessage (m : LogMessage)
  | switchProtocolVersionResponse (v : Version)
  | otherDaemon (payload : Nat)
  deriving DecidableEq, Repr

/-- Modelled from the spec: `tungstenite::Message` transport frames (binary
data frames, plus the non-data frames that `handle_daemon_message` rejects). -/
inductive Message where
  | binary (payload : List Nat)
  | text (s : String)
  | pingFrame (payload : List Nat)
  | pongFrame (payload : List Nat)
  | close (reason : Option String)
  deriving DecidableEq, Repr

/-- Modelled from the spec: opaque `tungstenite::Error` for transport
failures. -/
structure WsError where
  detail : String
  deriving DecidableEq, Repr

/-- Modelled from the spec: opaque `bincode` encode error. -/
structure EncodeError where
  detail : String
  deriving DecidableEq, Repr

/-- Modelled from the spec: opaque `bincode` decode error. -/
structure DecodeError where
  detail : String
  deriving DecidableEq, Repr

/-- `ConnectionWrapperError` from `client.rs`. -/
inductive ConnectionWrapperError where
  | decodeError (e : DecodeError)
  | encodeError (e : EncodeError)
  | wsError (e : WsError)
  | invalidMessage (m : Message)
  | channelClosed
  deriving DecidableEq, Repr

/-- Environment resolving the connection wrapper's external effects:
the `bincode` codec, the outcome of each transport `send` (consumed in
order, `none` = success) and of each `daemon_tx.send` (`true` = receiver
still open). An exhausted outcome list means success. -/
structure WrapperEnv where
  enc : ClientMessage → Except EncodeError (List Nat)
  dec : List Nat → Except DecodeError DaemonMessage
  sendOutcomes : List (Option WsError)
  daemonOutcomes : List Bool

/-- The wrapper's state: the remembered remote `protocol_version`, the
frames written to the transport so far, the messages pushed to the daemon
receiver so far, and the still-unconsumed environment outcomes. -/
structure WrapperState where
  protocol_version : Option Version
  sent : List Message
  daemonSent : List DaemonMessage
  sendOutcomes : List (Option WsError)
  daemonOutcomes : List Bool
  deriving Repr

/-- `self.connection.send(..)`: writes the frame on success, fails with the
transport error otherwise. -/
def transportSend (st : WrapperState) (m : Message) :
    Except ConnectionWrapperError WrapperState :=
  match st.sendOutcomes with
  | [] => .ok { st with sent := st.sent ++ [m] }
  | none :: rest =>
      .ok { st with sent := st.sent ++ [m], sendOutcomes := rest }
  | some e :: _ => .error (.wsError e)

/-- `self.daemon_tx.send(..)`: pushes the message if the receiver is open,
fails with `ChannelClosed` otherwise. -/
def daemonSend (st : WrapperState) (m : DaemonMessage) :
    Except ConnectionWrapperError WrapperState :=
  match st.daemonOutcomes with
  | [] => .ok { st with daemonSent := st.daemonSent ++ [m] }
  | true :: rest =>
      .ok { st with daemonSent := st.daemonSent ++ [m], daemonOutcomes := rest }
  | false :: _ => .error .channelClosed

/-- `ConnectionWrapper::handle_client_message`: encode with `bincode` and
send the binary frame. -/
def handle_client_message (env : WrapperEnv) (st : WrapperState)
    (client_message : ClientMessage) : Except ConnectionWrapperError WrapperState :=
  match env.enc client_message with
  | .error e => .error (.encodeError e)
  | .ok payload => transportSend st (.binary payload)

/-- `ConnectionWrapper::handle_daemon_message`: a transport error
propagates; a binary frame is decoded and forwarded to the daemon
receiver; any other frame is rejected as `InvalidMessage`. -/
def handle_daemon_message (env : WrapperEnv) (st : WrapperState)
    (daemon_message : Except WsError Message) :
    Except ConnectionWrapperError WrapperState :=
  match daemon_message with
  | .error e => .error (.wsError e)
  | .ok (.binary payload) =>
      match env.dec payload with
      | .error e => .error (.decodeError e)
      | .ok m => daemonSend st m
  | .ok m => .error (.invalidMessage m)

/-- The hardcoded fallback `"1.2.1".parse().expect("Bad static version")`
used when the remote protocol version is unknown. -/
def fallbackProtocolVersion : Version :=
  (Version.parseSimple "1.2.1").getD ⟨0, 0, 0⟩

/-- One `tokio::select!` arm outcome in `ConnectionWrapper::start`:
either the client channel yields (`none` = channel closed) or the
transport yields (`none` = stream ended). -/
inductive WrapperEvent where
  | fromClient (m : Option ClientMessage)
  | fromTransport (m : Option (Except WsError Message))

/-- One iteration of the `ConnectionWrapper::start` loop body.
`.ok none` is `break`; `.error` propagates out of `start` (skipping the
close frame, as `?` does in the source). -/
def wrapperStep (env : WrapperEnv) (st : WrapperState) (ev : WrapperEvent) :
    Except ConnectionWrapperError (Option WrapperState) :=
  match ev with
  | .fromClient none => .ok none
  | .fromClient (some (.switchProtocolVersion version)) =>
      match st.protocol_version with
      | some operator_protocol_version =>
          (handle_client_message env st
            (.switchProtocolVersion (operator_protocol_version.min version))).map some
      | none =>
          (daemonSend st
            (.switchProtocolVersionResponse fallbackProtocolVersion)).map some
  | .fromClient (some client_message) =>
      (handle_client_message env st client_message).map some
  | .fromTransport none => .ok none
  | .fromTransport (some daemon_message) =>
      (handle_daemon_message env st daemon_message).map some

/-- How a (partial) run of `ConnectionWrapper::start` ended: still inside
the loop, returned cleanly after `break` + best-effort close, or returned
early with an error (no close frame attempted on that path). -/
inductive WrapperOutcome where
  | running
  | finished
  | errored (e : ConnectionWrapperError)
  deriving DecidableEq, Repr

/-- `let _ = self.connection.send(Message::Close(None)).await;` — the
best-effort close after the loop breaks; a send failure is swallowed. -/
def sendCloseBestEffort (st : WrapperState) : WrapperState :=
  match st.sendOutcomes with
  | [] => { st with sent := st.sent ++ [.close none] }
  | none :: rest => { st with sent := st.sent ++ [.close none], sendOutcomes := rest }
  | some _ :: rest => { st with sendOutcomes := rest }

/-- `ConnectionWrapper::start` folded over a finite prefix of select
outcomes. An error aborts immediately (the `?` paths), `break` performs
the best-effort close, an exhausted event list leaves the loop running. -/
def wrapperRun (env : WrapperEnv) (st : WrapperState) :
    List WrapperEvent → WrapperState × WrapperOutcome
  | [] => (st, .running)
  | ev :: rest =>
      match wrapperStep env st ev with
      | .error e => (st, .errored e)
      | .ok none => (sendCloseBestEffort st, .finished)
      | .ok (some st') => wrapperRun env st' rest

/-- Initial wrapper state for a given advertised remote protocol version
and environment. -/
def initialWrapperState (env : WrapperEnv) (pv : Option Version) : WrapperState :=
  { protocol_version := pv
    sent := []
    daemonSent := []
    sendOutcomes := env.sendOutcomes
    daemonOutcomes := env.daemonOutcomes }

/-! ## Handshake verifier (`mod upgrade` in `client.rs`) -/

/-- Modelled from the spec: `kube::core::ErrorResponse`, the structured
status/error object recovered from an upgrade-failure body. -/
structure ErrorResponse where
  status : String
  message : String
  reason : String
  code : Nat
  deriving DecidableEq, Repr

/-- `kube::client::UpgradeConnectionError` variants produced by
`verify_response`. -/
inductive UpgradeConnectionError where
  | protocolSwitch (status : Nat)
  | missingUpgradeWebSocketHeader
  | missingConnectionUpgradeHeader
  | secWebSocketAcceptKeyMismatch
  | secWebSocketProtocolMismatch
  deriving DecidableEq, Repr

/-- The `kube::Error` variants `verify_response` returns. -/
inductive KubeClientError where
  | api (e : ErrorResponse)
  | upgradeConnection (e : UpgradeConnectionError)
  deriving DecidableEq, Repr

/-- An upgrade response as `verify_response` inspects it: the HTTP status
code, the four headers it reads (each `headers.get(..)`, `none` when
absent), and the collected body (`none` when collecting the body stream
fails). -/
structure UpgradeResponse where
  status : Nat
  upgradeHeader : Option String
  connectionHeader : Option String
  secWebSocketAccept : Option String
  secWebSocketProtocol : Option String
  body : Option String
  deriving DecidableEq, Repr

/-- ASCII-only lowercase folding, as `str::eq_ignore_ascii_case`. -/
def asciiLower (c : Char) : Char :=
  if c.isUpper then Char.ofNat (c.toNat + 32) else c

/-- `str::eq_ignore_ascii_case`. -/
def eqIgnoreAsciiCase (a b : String) : Bool :=
  a.data.map asciiLower == b.data.map asciiLower

/-- `StatusCode::is_client_error`. -/
def isClientError (status : Nat) : Bool := 400 ≤ status && status ≤ 499

/-- `StatusCode::is_server_error`. -/
def isServerError (status : Nat) : Bool := 500 ≤ status && status ≤ 599

/-- `StatusCode::SWITCHING_PROTOCOLS`. -/
def SWITCHING_PROTOCOLS : Nat := 101

/-- The required sub-protocol token `WS_PROTOCOL`. -/
def WS_PROTOCOL : String := "v4.channel.k8s.io"

/-- `verify_response` from `mod upgrade`, parameterized over the external
`tungstenite::handshake::derive_accept_key` and the `serde_json` parse of
the body into an `ErrorResponse` (`none` = not parseable). Returns the
response unchanged (here `Unit`) on success. -/
def verify_response (deriveAcceptKey : String → String)
    (parseErrorBody : String → Option ErrorResponse)
    (res : UpgradeResponse) (key : String) : Except KubeClientError Unit :=
  let status := res.status
  if status ≠ SWITCHING_PROTOCOLS then
    let error_response : Option ErrorResponse :=
      if isClientError status || isServerError status then
        res.body.bind parseErrorBody
      else
        none
    match error_response with
    | some error_response => .error (.api error_response)
    | none => .error (.upgradeConnection (.protocolSwitch status))
  else if ¬ ((res.upgradeHeader.map
      (fun h => eqIgnoreAsciiCase h "websocket")).getD false) then
    .error (.upgradeConnection .missingUpgradeWebSocketHeader)
  else if ¬ ((res.connectionHeader.map
      (fun h => eqIgnoreAsciiCase h "Upgrade")).getD false) then
    .error (.upgradeConnection .missingConnectionUpgradeHeader)
  else if ¬ ((res.secWebSocketAccept.map
      (fun h => h == deriveAcceptKey key)).getD false) then
    .error (.upgradeConnection .secWebSocketAcceptKeyMismatch)
  else if ¬ ((res.secWebSocketProtocol.map
      (fun h => h == WS_PROTOCOL)).getD false) then
    .error (.upgradeConnection .secWebSocketProtocolMismatch)
  else
    .ok ()

/-- The upgrade-header check of `verify_response`. -/
def upgradeHeaderOk (res : UpgradeResponse) : Bool :=
  (res.upgradeHeader.map (fun h => eqIgnoreAsciiCase h "websocket")).getD false

/-- The connection-header check of `verify_response`. -/
def connectionHeaderOk (res : UpgradeResponse) : Bool :=
  (res.connectionHeader.map (fun h => eqIgnoreAsciiCase h "Upgrade")).getD false

/-- The accept-key check of `verify_response`. -/
def acceptHeaderOk (deriveAcceptKey : String → String) (res : UpgradeResponse)
    (key : String) : Bool :=
  (res.secWebSocketAccept.map (fun h => h == deriveAcceptKey key)).getD false

/-- The sub-protocol check of `verify_response`. -/
def protocolHeaderOk (res : UpgradeResponse) : Bool :=
  (res.secWebSocketProtocol.map (fun h => h == WS_PROTOCOL)).getD false

/-- The error `verify_response` produces on a non-`101` status: the
recovered structured body when the status is an error class and the body
parses, the generic protocol-switch failure otherwise. -/
def statusFailureError (parseErrorBody : String → Option ErrorResponse)
    (res : UpgradeResponse) : KubeClientError :=
  if isClientError res.status || isServerError res.status then
    match res.body.bind parseErrorBody with
    | some er => .api er
    | none => .upgradeConnection (.protocolSwitch res.status)
  else
    .upgradeConnection (.protocolSwitch res.status)

/-- `verify_response` rewritten as the ordered chain of its five checks. -/
theorem verify_response_cases (deriveAcceptKey : String → String)
    (parseErrorBody : String → Option ErrorResponse)
    (res : UpgradeResponse) (key : String) :
    verify_response deriveAcceptKey parseErrorBody res key =
      if res.status ≠ SWITCHING_PROTOCOLS then
        .error (statusFailureError parseErrorBody res)
      else if ¬ upgradeHeaderOk res then
        .error (.upgradeConnection .missingUpgradeWebSocketHeader)
      else if ¬ connectionHeaderOk res then
        .error (.upgradeConnection .missingConnectionUpgradeHeader)
      else if ¬ acceptHeaderOk deriveAcceptKey res key then
        .error (.upgradeConnection .secWebSocketAcceptKeyMismatch)
      else if ¬ protocolHeaderOk res then
        .error (.upgradeConnection .secWebSocketProtocolMismatch)
      else
        .ok () := by
  unfold verify_response statusFailureError upgradeHeaderOk connectionHeaderOk
    acceptHeaderOk protocolHeaderOk
  cases hc : (isClientError res.status || isServerError res.status) <;>
    cases hb : res.body.bind parseErrorBody <;> simp [hc, hb]

/-! ## Session negotiator (`OperatorApi` in `client.rs`) -/

/-- `OperatorOperation` from `client.rs`. -/
inductive OperatorOperation where
  | findingOperator
  | findingTarget
  | websocketConnection
  | copyingTarget
  | gettingStatus
  | sessionManagement
  | listingTargets
  deriving DecidableEq, Repr

/-- Modelled from the spec: opaque `kube::Error` for failed cluster calls. -/
structure KubeErr where
  detail : String
  deriving DecidableEq, Repr

/-- Modelled from the spec: opaque `KubeApiError` from `create_kube_api`. -/
structure KubeApiCreateError where
  detail : String
  deriving DecidableEq, Repr

/-- Modelled from the spec: opaque `AuthenticationError` from the
credential store. -/
structure AuthError where
  detail : String
  deriving DecidableEq, Repr

/-- Modelled from the spec: opaque client certificate. -/
structure Certificate where
  der : List Nat
  deriving DecidableEq, Repr

/-- `OperatorApiError` from `client.rs`. -/
inductive OperatorApiError where
  | connectRequestBuildError
  | createApiError (e : KubeApiCreateError)
  | kubeError (error : KubeErr) (operation : OperatorOperation)
  | unsupportedFeature (feature : String) (operator_version : String)
  | statusFailure (operation : OperatorOperation) (code : Nat) (reason : String)
  | noLicense
  deriving DecidableEq, Repr

/-- Modelled from the spec: a target descriptor (`mirrord_config::Target`);
only `Targetless` is referenced by name in `create_session`. -/
inductive Target where
  | targetless
  | named (path : String)
  deriving DecidableEq, Repr

/-- The `copy_target` feature section of the layer config. -/
structure CopyTargetFeatureConfig where
  enabled : Bool
  scale_down : Bool
  deriving DecidableEq, Repr

/-- The slice of `LayerConfig` that `create_session` and `check_config`
read: the copy-target feature toggle and the configured target path. -/
structure LayerConfig where
  copy_target : CopyTargetFeatureConfig
  target_path : Option Target
  deriving DecidableEq, Repr

/-- `OperatorFeatures` from the operator CRD; `ProxyApi` is the only
feature flag the client inspects. -/
inductive OperatorFeatures where
  | proxyApi
  deriving DecidableEq, Repr

/-- The license block of the operator CRD spec as read by
`create_session` (`expire_at` is consumed only through the external
days-until-expiration computation, supplied by the environment). -/
structure OperatorLicense where
  name : String
  fingerprint : Option String
  deriving DecidableEq, Repr

/-- The operator CRD spec fields read by `create_session`. -/
structure MirrordOperatorSpec where
  license : OperatorLicense
  operator_version : String
  protocol_version : Option String
  features : Option (List OperatorFeatures)
  copy_target_enabled : Option Bool
  deriving DecidableEq, Repr

/-- `CopyTargetSpec` from the CRD crate. -/
structure CopyTargetSpec where
  target : Target
  idle_ttl : Option Nat
  scale_down : Bool
  deriving DecidableEq, Repr

/-- Modelled from the spec: the `CopyTargetCrd` resource (name + spec). -/
structure CopyTargetCrd where
  name : String
  spec : CopyTargetSpec
  deriving DecidableEq, Repr

/-- Modelled from the spec: the `TargetCrd` resource. -/
structure TargetCrd where
  name : String
  deriving DecidableEq, Repr

/-- `OperatorSessionMetadata` from `client.rs`. -/
structure OperatorSessionMetadata where
  client_certificate : Option Certificate
  session_id : Nat
  fingerprint : Option String
  operator_features : List OperatorFeatures
  protocol_version : Option Version
  copy_pod_enabled : Option Bool
  deriving DecidableEq, Repr

/-- `OperatorSessionTarget` from `client.rs`. -/
inductive OperatorSessionTarget where
  | raw (t : TargetCrd)
  | copied (t : CopyTargetCrd)
  deriving DecidableEq, Repr

/-- `OperatorSessionInformation` from `client.rs`. -/
structure OperatorSessionInformation where
  target : OperatorSessionTarget
  metadata : OperatorSessionMetadata
  deriving DecidableEq, Repr

/-- Helper for `containsSubstring`: does `pat` occur in the list? -/
def containsSubAux (pat : List Char) : List Char → Bool
  | [] => pat.isEmpty
  | c :: rest => List.isPrefixOf pat (c :: rest) || containsSubAux pat rest

/-- `str::contains` over the underlying character lists. -/
def containsSubstring (s pat : String) : Bool :=
  containsSubAux pat.data s.data

/-- `OperatorApi::COPIED_POD_IDLE_TTL`: copied pods live 30 seconds before
the internal proxy connects. -/
def COPIED_POD_IDLE_TTL : Nat := 30

/-- `OperatorApi::check_config`: requesting `copy_target` while the
operator does not advertise it (`copy_target_enabled.unwrap_or(false)`)
is `UnsupportedFeature`. -/
def check_config (config : LayerConfig) (operator : MirrordOperatorSpec) :
    Except OperatorApiError Unit :=
  if config.copy_target.enabled && !(operator.copy_target_enabled.getD false) then
    .error (.unsupportedFeature "copy target" operator.operator_version)
  else
    .ok ()

/-- How `connect_target` can fail: building the upgrade request, or the
websocket connection itself. -/
inductive ConnectFailure where
  | buildError
  | kube (e : KubeErr)
  deriving DecidableEq, Repr

/-- Environment resolving every external call `create_session` makes, in
source order: `OperatorApi::new`, `fetch_operator`, the license
days-until-expiration computation (`none` = expired / invalid),
`LicenseValidity::CLOSE_TO_EXPIRATION_DAYS`, `get_client_certificate`,
the random session id, the external semver parse, the compile-time
mirrord version, `copy_target`, `fetch_target` and `connect_target`. -/
structure SessionEnv where
  newApi : Except KubeApiCreateError Unit
  fetchOperator : Except KubeErr MirrordOperatorSpec
  daysUntilExpiration : Option Int
  closeToExpirationDays : Int
  clientCertificate : Except AuthError (Option Certificate)
  sessionId : Nat
  parseVersion : String → Option Version
  mirrordVersion : Version
  copyTarget : Except KubeErr CopyTargetCrd
  fetchTarget : Except KubeErr TargetCrd
  connect : Except ConnectFailure Unit

/-- Observable operations `create_session` performs, in order. -/
inductive SessionOp where
  | fetchOperatorCall
  | progressWarning
  | progressInfo
  | getClientCertificateCall
  | setOperatorPropertiesCall
  | copyTargetCall
  | fetchTargetCall
  | connectCall
  deriving DecidableEq, Repr

/-- Result of a `create_session` run: a connected session (carrying its
`OperatorSessionInformation`), an `OperatorApiError`, or a panic (the
`expect` on the operator version parse). -/
inductive SessionOutcome where
  | ok (info : OperatorSessionInformation)
  | err (e : OperatorApiError)
  | panicked (msg : String)
  deriving DecidableEq, Repr

/-- `OperatorApi::create_session`, with external calls resolved through
`SessionEnv` and the performed operations collected in a trace.
Mirrors the source order: new api → fetch operator → license validity
(early `NoLicense` return) → trial-expiry warnings → `check_config` →
certificate fetch (errors flattened to `none`) → metadata build →
operator version parse (`expect`) → version-mismatch warnings → target
resolution (copy vs fetch) → `connect_target`. -/
def create_session (env : SessionEnv) (config : LayerConfig) :
    SessionOutcome × List SessionOp :=
  match env.newApi with
  | .error e => (.err (.createApiError e), [])
  | .ok _ =>
  match env.fetchOperator with
  | .error e => (.err (.kubeError e .findingOperator), [.fetchOperatorCall])
  | .ok operator =>
  match env.daysUntilExpiration with
  | none => (.err .noLicense, [.fetchOperatorCall, .progressWarning])
  | some days_until_expiration =>
  let expires_soon := days_until_expiration ≤ env.closeToExpirationDays
  let is_trial := containsSubstring operator.license.name "(Trial)"
  let licenseTrace :=
    if is_trial && expires_soon then [SessionOp.progressWarning]
    else if is_trial then [SessionOp.progressInfo]
    else []
  let trace0 := SessionOp.fetchOperatorCall :: licenseTrace
  match check_config config operator with
  | .error e => (.err e, trace0)
  | .ok _ =>
  let client_certificate : Option Certificate :=
    match env.clientCertificate with
    | .ok c => c
    | .error _ => none
  let metadata : OperatorSessionMetadata :=
    { client_certificate := client_certificate
      session_id := env.sessionId
      fingerprint := operator.license.fingerprint
      operator_features := operator.features.getD []
      protocol_version := operator.protocol_version.bind env.parseVersion
      copy_pod_enabled := operator.copy_target_enabled }
  let trace1 := trace0 ++
    [SessionOp.getClientCertificateCall, SessionOp.setOperatorPropertiesCall]
  match env.parseVersion operator.operator_version with
  | none => (.panicked "failed to parse operator version from operator crd", trace1)
  | some operator_version =>
  let versionTrace :=
    if env.mirrordVersion.ltb operator_version then
      [SessionOp.progressWarning, SessionOp.progressWarning]
    else []
  let trace2 := trace1 ++ versionTrace
  if config.copy_target.enabled then
    match env.copyTarget with
    | .error e => (.err (.kubeError e .copyingTarget), trace2 ++ [.copyTargetCall])
    | .ok copied =>
      let session_info : OperatorSessionInformation :=
        { target := .copied copied, metadata := metadata }
      match env.connect with
      | .error .buildError =>
          (.err .connectRequestBuildError, trace2 ++ [.copyTargetCall, .connectCall])
      | .error (.kube e) =>
          (.err (.kubeError e .websocketConnection),
            trace2 ++ [.copyTargetCall, .connectCall])
      | .ok _ => (.ok session_info, trace2 ++ [.copyTargetCall, .connectCall])
  else
    match env.fetchTarget with
    | .error e => (.err (.kubeError e .findingTarget), trace2 ++ [.fetchTargetCall])
    | .ok raw_target =>
      let session_info : OperatorSessionInformation :=
        { target := .raw raw_target, metadata := metadata }
      match env.connect with
      | .error .buildError =>
          (.err .connectRequestBuildError, trace2 ++ [.fetchTargetCall, .connectCall])
      | .error (.kube e) =>
          (.err (.kubeError e .websocketConnection),
            trace2 ++ [.fetchTargetCall, .connectCall])
      | .ok _ => (.ok session_info, trace2 ++ [.fetchTargetCall, .connectCall])

/-! ## Internal proxy (`internal_proxy.rs`) -/

/-- Modelled from the spec: `InternalProxySetupError` (declared in the
cli crate's `error.rs`, outside the provided sources); variants follow
the constructors used in `internal_proxy.rs` plus the channel-send
conversion used by `ping`'s `sender.send(..).await?`. -/
inductive InternalProxySetupError where
  | setSidError (detail : String)
  | localPortError (detail : String)
  | listenError (detail : String)
  | noPong (s : String)
  | pingSendError
  | agentClosedConnection
  deriving DecidableEq, Repr

/-- `format!("{other:?}")` over the received `Option<DaemonMessage>`. -/
def describeRecv : Option DaemonMessage → String
  | none => "None"
  | some m => "Some(" ++ reprStr m ++ ")"

/-- What ends the bounded wait in `ping` when no terminating message was
received: the channel closing, or the 5-second deadline elapsing. -/
inductive PingEnd where
  | closed
  | deadline
  deriving DecidableEq, Repr

/-- One invocation of `ping` as seen from outside: whether the probe send
succeeded, the messages the receiver yields within the 5-second window,
and what ends the wait if none of them terminates it. -/
structure PingInput where
  sendOk : Bool
  received : List DaemonMessage
  ending : PingEnd
  deriving Repr

/-- The receive loop inside `ping`'s `tokio::time::timeout` block:
`Pong` succeeds, `LogMessage` is logged and skipped, anything else
(including the channel closing) is an invalid ping response; the elapsed
deadline maps to `NoPong("Timeout in pong")`. -/
def ping_recv : List DaemonMessage → PingEnd → Except InternalProxySetupError Unit
  | [], .closed => .error (.noPong (describeRecv none))
  | [], .deadline => .error (.noPong "Timeout in pong")
  | .pong :: _, _ => .ok ()
  | .logMessage _ :: rest, ending => ping_recv rest ending
  | m :: _, _ => .error (.noPong (describeRecv (some m)))

/-- `ping`: send `ClientMessage::Ping`, then await a `Pong` under the
5-second deadline. -/
def ping (inp : PingInput) : Except InternalProxySetupError Unit :=
  if inp.sendOk then ping_recv inp.received inp.ending
  else .error .pingSendError

/-- One `tokio::select!` outcome in the `create_ping_loop` task: the 30s
interval ticking (with that probe's outcome described by `PingInput`), or
the cancellation token firing. -/
inductive PingLoopEvent where
  | tick (inp : PingInput)
  | cancelled

/-- Whether a (partial) run of the keep-alive loop is still inside the
loop or has returned. -/
inductive PingLoopOutcome where
  | running
  | done (r : Except InternalProxySetupError Unit)
  deriving Repr

/-- Observables of a keep-alive loop run: how many probes (`ping` calls)
were issued, whether the loop itself called `cancellation_token.cancel()`,
and how the task ended. -/
structure PingLoopResult where
  pings : Nat
  cancelledByLoop : Bool
  outcome : PingLoopOutcome
  deriving Repr

/-- The loop body of `create_ping_loop` folded over a finite prefix of
select outcomes (the interval's immediate first tick is consumed before
the loop in the source, so every `tick` event here is a real 30s tick).
A failing `ping` cancels the token and returns the error — no further
event is processed; an external cancellation breaks cleanly. -/
def ping_loop_run : List PingLoopEvent → PingLoopResult
  | [] => { pings := 0, cancelledByLoop := false, outcome := .running }
  | .cancelled :: _ =>
      { pings := 0, cancelledByLoop := false, outcome := .done (.ok ()) }
  | .tick inp :: rest =>
      match ping inp with
      | .ok _ =>
          let r := ping_loop_run rest
          { r with pings := r.pings + 1 }
      | .error e =>
          { pings := 1, cancelledByLoop := true, outcome := .done (.error e) }

/-- Modelled from the spec: `CliError` (declared in the cli crate's
`error.rs`, outside the provided sources); variants follow the
constructors used in `internal_proxy.rs`. -/
inductive CliError where
  | configLoad (detail : String)
  | openIntProxyLogFile (detail : String)
  | connectInfoLoadFailed (detail : String)
  | agentConnection (detail : String)
  | intProxy (detail : String)
  | setup (e : InternalProxySetupError)
  deriving DecidableEq, Repr

/-- The slice of `LayerConfig.internal_proxy` that `proxy` reads. -/
structure ProxyConfig where
  log_destination : Option String
  start_idle_timeout : Nat
  idle_timeout : Nat
  deriving DecidableEq, Repr

/-- The bound listening socket, as far as `proxy` observes it. -/
structure Listener where
  port : Nat
  deriving DecidableEq, Repr

/-- `main_connection_task_join.await`: clean exit, task error, or join
failure (panic). -/
inductive JoinOutcome where
  | success
  | taskErr (e : InternalProxySetupError)
  | joinFailed
  deriving DecidableEq, Repr

/-- Environment resolving every external step of `proxy`, in source
order. -/
structure ProxyEnv where
  config : Except CliError ProxyConfig
  logFileOpen : Except CliError Unit
  rlimitOk : Bool
  agentConnectInfo : Except CliError (Option String)
  createListenSocket : Except InternalProxySetupError Listener
  connectAndPing : Except CliError Unit
  localAddrOk : Bool
  detachSetSidOk : Bool
  intProxyNew : Except CliError Unit
  intProxyRun : Except CliError Unit
  mainTaskJoin : JoinOutcome

/-- Observable operations of a `proxy` run, in order. `stdoutWrite`
carries the exact bytes written to standard output. -/
inductive ProxyOp where
  | setRLimit
  | connectAndPingCall
  | createPingLoopCall
  | stdoutWrite (s : String)
  | detachIO
  | intProxyRunCall
  | cancelMainToken
  | joinMainTask
  deriving DecidableEq, Repr

/-- `print_port`: read the listener's local address (fallible) and
`println!("{port}\n")` — i.e. write the decimal port, a newline from the
format string, and the newline `println!` appends. -/
def print_port (env : ProxyEnv) (listener : Listener) :
    Except InternalProxySetupError String :=
  if env.localAddrOk then .ok (toString listener.port ++ "\n\n")
  else .error (.localPortError "local_addr failed")

/-- `proxy` from `internal_proxy.rs`, with external steps resolved
through `ProxyEnv` and the observable operations collected in a trace:
config load → optional log-file setup → `setrlimit` (failure only warns)
→ agent connect info → bind listener → `connect_and_ping` →
`create_ping_loop` → `print_port` → `detach_io` → `IntProxy::new` →
`run` → cancel keep-alive token → join the keep-alive task (a join
failure is treated as the agent having closed the connection). -/
def proxy_run (env : ProxyEnv) : Except CliError Unit × List ProxyOp :=
  match env.config with
  | .error e => (.error e, [])
  | .ok config =>
  match (if config.log_destination.isSome then env.logFileOpen else .ok ()) with
  | .error e => (.error e, [])
  | .ok _ =>
  match env.agentConnectInfo with
  | .error e => (.error e, [.setRLimit])
  | .ok _ =>
  match env.createListenSocket with
  | .error e => (.error (.setup e), [.setRLimit])
  | .ok listener =>
  match env.connectAndPing with
  | .error e => (.error e, [.setRLimit, .connectAndPingCall])
  | .ok _ =>
  let trace0 := [ProxyOp.setRLimit, ProxyOp.connectAndPingCall,
                 ProxyOp.createPingLoopCall]
  match print_port env listener with
  | .error e => (.error (.setup e), trace0)
  | .ok written =>
  let trace1 := trace0 ++ [ProxyOp.stdoutWrite written]
  if !env.detachSetSidOk then
    (.error (.setup (.setSidError "setsid failed")), trace1)
  else
  let trace2 := trace1 ++ [ProxyOp.detachIO]
  match env.intProxyNew with
  | .error e => (.error e, trace2)
  | .ok _ =>
  match env.intProxyRun with
  | .error e => (.error e, trace2 ++ [.intProxyRunCall])
  | .ok _ =>
  let trace3 := trace2 ++ [ProxyOp.intProxyRunCall, ProxyOp.cancelMainToken,
                           ProxyOp.joinMainTask]
  match env.mainTaskJoin with
  | .success => (.ok (), trace3)
  | .taskErr e => (.error (.setup e), trace3)
  | .joinFailed => (.error (.setup .agentClosedConnection), trace3)

/-- Recognizes standard-output writes in a proxy trace. -/
def ProxyOp.isStdoutWrite : ProxyOp → Bool
  | .stdoutWrite _ => true
  | _ => false

/-! ## Claims about the connection wrapper -/

/-- A fixed environment for concrete wrapper runs: constant codec, every
send succeeds. -/
def sampleWrapperEnv : WrapperEnv :=
  { enc := fun _ => .ok [0]
    dec := fun _ => .ok DaemonMessage.pong
    sendOutcomes := []
    daemonOutcomes := [] }

/-- C1: an outbound `SwitchProtocolVersion(v)` is rewritten to `min(b, v)`
and forwarded to the transport when the remote protocol version `b` is
known; when it is unknown, nothing is written to the transport and a
`SwitchProtocolVersionResponse` carrying the fixed fallback version is
synthesized on the inbound side. -/
theorem C1_switch_protocol_version (env : WrapperEnv) (st : WrapperState)
    (v : Version) :
    (∀ b payload, st.protocol_version = some b →
      env.enc (.switchProtocolVersion (Version.min b v)) = .ok payload →
      st.sendOutcomes = [] →
      wrapperStep env st (.fromClient (some (.switchProtocolVersion v))) =
        .ok (some { st with sent := st.sent ++ [.binary payload] })) ∧
    (st.protocol_version = none → st.daemonOutcomes = [] →
      wrapperStep env st (.fromClient (some (.switchProtocolVersion v))) =
        .ok (some { st with daemonSent := st.daemonSent ++
          [.switchProtocolVersionResponse fallbackProtocolVersion] })) := by
  constructor
  · intro b payload hpv henc hso
    simp [wrapperStep, hpv, handle_client_message, henc, transportSend, hso,
      Except.map]
  · intro hpv hdo
    simp [wrapperStep, hpv, daemonSend, hdo, Except.map]

/-- C1 witness: remote version 1.2.1, requested switch to 1.3.0. -/
theorem C1_witness :
    wrapperStep sampleWrapperEnv
        { protocol_version := some ⟨1, 2, 1⟩,
          sent := [],
          daemonSent := [],
          sendOutcomes := [],
          daemonOutcomes := [] }
        (.fromClient (some (.switchProtocolVersion ⟨1, 3, 0⟩))) =
      .ok (some { protocol_version := some ⟨1, 2, 1⟩,
                  sent := [.binary [0]],
                  daemonSent := [],
                  sendOutcomes := [],
                  daemonOutcomes := [] }) :=
  (C1_switch_protocol_version sampleWrapperEnv
    { protocol_version := some ⟨1, 2, 1⟩,
      sent := [],
      daemonSent := [],
      sendOutcomes := [],
      daemonOutcomes := [] } ⟨1, 3, 0⟩).1
    ⟨1, 2, 1⟩ [0] rfl rfl rfl

/-- C10: when the remote protocol version is unknown, the synthesized
`SwitchProtocolVersionResponse` carries exactly version 1.2.1, the parse
of the hardcoded fallback literal. -/
theorem C10_fallback_version (env : WrapperEnv) (st : WrapperState)
    (v : Version) (hpv : st.protocol_version = none)
    (hdo : st.daemonOutcomes = []) :
    fallbackProtocolVersion = ⟨1, 2, 1⟩ ∧
    wrapperStep env st (.fromClient (some (.switchProtocolVersion v))) =
      .ok (some { st with daemonSent := st.daemonSent ++
        [.switchProtocolVersionResponse ⟨1, 2, 1⟩] }) := by
  have hf : fallbackProtocolVersion = ⟨1, 2, 1⟩ := by decide
  refine ⟨hf, ?_⟩
  simp [wrapperStep, hpv, daemonSend, hdo, hf, Except.map]

/-- C10 witness: concrete run with unknown remote version. -/
theorem C10_witness :
    fallbackProtocolVersion = ⟨1, 2, 1⟩ ∧
    wrapperStep sampleWrapperEnv (initialWrapperState sampleWrapperEnv none)
        (.fromClient (some (.switchProtocolVersion ⟨1, 0, 0⟩))) =
      .ok (some { initialWrapperState sampleWrapperEnv none with
        daemonSent := [.switchProtocolVersionResponse ⟨1, 2, 1⟩] }) :=
  C10_fallback_version sampleWrapperEnv
    (initialWrapperState sampleWrapperEnv none) ⟨1, 0, 0⟩ rfl rfl

/-- C8 (amended): a non-binary transport frame terminates the wrapper run
immediately with `InvalidMessage` carrying that frame, and the state is
returned unchanged — on this error path nothing further is sent, in
particular no best-effort close frame (the close is only attempted on
clean termination, when a channel end closes). -/
theorem C8_invalid_frame_no_close (env : WrapperEnv) (st : WrapperState)
    (m : Message) (h : ∀ p, m ≠ .binary p) (rest : List WrapperEvent) :
    wrapperRun env st (.fromTransport (some (.ok m)) :: rest) =
      (st, .errored (.invalidMessage m)) := by
  cases m with
  | binary p => exact absurd rfl (h p)
  | text s => simp [wrapperRun, wrapperStep, handle_daemon_message, Except.map]
  | pingFrame p =>
      simp [wrapperRun, wrapperStep, handle_daemon_message, Except.map]
  | pongFrame p =>
      simp [wrapperRun, wrapperStep, handle_daemon_message, Except.map]
  | close r => simp [wrapperRun, wrapperStep, handle_daemon_message, Except.map]

/-- C8 counterexample: on a text frame the wrapper does terminate with
`InvalidMessage`, but its transport send trace stays empty — no
best-effort close frame is attempted, contrary to the claim. -/
theorem C8_counterexample :
    (wrapperRun sampleWrapperEnv (initialWrapperState sampleWrapperEnv none)
        [.fromTransport (some (.ok (.text "hello")))]).2 =
      .errored (.invalidMessage (.text "hello")) ∧
    (wrapperRun sampleWrapperEnv (initialWrapperState sampleWrapperEnv none)
        [.fromTransport (some (.ok (.text "hello")))]).1.sent = [] :=
  ⟨rfl, rfl⟩

/-- C8 witness: the amended theorem at a concrete text frame. -/
theorem C8_witness :
    wrapperRun sampleWrapperEnv (initialWrapperState sampleWrapperEnv none)
        [.fromTransport (some (.ok (.text "hello")))] =
      (initialWrapperState sampleWrapperEnv none,
        .errored (.invalidMessage (.text "hello"))) :=
  C8_invalid_frame_no_close sampleWrapperEnv
    (initialWrapperState sampleWrapperEnv none) (.text "hello")
    (by intro p hcontra; cases hcontra) []

/-! ## Claims about the handshake verifier -/

/-- C2: `verify_response` accepts iff the status is switching-protocols
and all four header checks pass; a non-101 status yields the
status-failure error; among the header checks, the first failing one (in
source order: upgrade, connection, accept-key, sub-protocol) determines
the reported error regardless of the later checks. -/
theorem C2_verify_response_first_failing_check (dak : String → String)
    (pe : String → Option ErrorResponse) (res : UpgradeResponse)
    (key : String) :
    (verify_response dak pe res key = .ok () ↔
      (res.status = SWITCHING_PROTOCOLS ∧ upgradeHeaderOk res = true ∧
        connectionHeaderOk res = true ∧ acceptHeaderOk dak res key = true ∧
        protocolHeaderOk res = true)) ∧
    (res.status ≠ SWITCHING_PROTOCOLS →
      verify_response dak pe res key = .error (statusFailureError pe res)) ∧
    (res.status = SWITCHING_PROTOCOLS → upgradeHeaderOk res = false →
      verify_response dak pe res key =
        .error (.upgradeConnection .missingUpgradeWebSocketHeader)) ∧
    (res.status = SWITCHING_PROTOCOLS → upgradeHeaderOk res = true →
      connectionHeaderOk res = false →
      verify_response dak pe res key =
        .error (.upgradeConnection .missingConnectionUpgradeHeader)) ∧
    (res.status = SWITCHING_PROTOCOLS → upgradeHeaderOk res = true →
      connectionHeaderOk res = true → acceptHeaderOk dak res key = false →
      verify_response dak pe res key =
        .error (.upgradeConnection .secWebSocketAcceptKeyMismatch)) ∧
    (res.status = SWITCHING_PROTOCOLS → upgradeHeaderOk res = true →
      connectionHeaderOk res = true → acceptHeaderOk dak res key = true →
      protocolHeaderOk res = false →
      verify_response dak pe res key =
        .error (.upgradeConnection .secWebSocketProtocolMismatch)) := by
  rw [verify_response_cases]
  refine ⟨?_, ?_, ?_, ?_, ?_, ?_⟩
  · by_cases h1 : res.status = SWITCHING_PROTOCOLS <;>
      by_cases h2 : upgradeHeaderOk res = true <;>
        by_cases h3 : connectionHeaderOk res = true <;>
          by_cases h4 : acceptHeaderOk dak res key = true <;>
            by_cases h5 : protocolHeaderOk res = true <;>
              simp [h1, h2, h3, h4, h5]
  · intro h1
    simp [h1]
  · intro h1 h2
    simp [h1, h2]
  · intro h1 h2 h3
    simp [h1, h2, h3]
  · intro h1 h2 h3 h4
    simp [h1, h2, h3, h4]
  · intro h1 h2 h3 h4 h5
    simp [h1, h2, h3, h4, h5]

/-- A response passing every check for the derive function
`fun k => "derived-" ++ k` and key `"k"`. -/
def sampleAcceptedResponse : UpgradeResponse :=
  { status := 101
    upgradeHeader := some "WebSocket"
    connectionHeader := some "upgrade"
    secWebSocketAccept := some "derived-k"
    secWebSocketProtocol := some "v4.channel.k8s.io"
    body := none }

/-- C2 witness: the fully valid concrete response is accepted. -/
theorem C2_witness :
    verify_response (fun k => "derived-" ++ k) (fun _ => none)
      sampleAcceptedResponse "k" = .ok () :=
  ((C2_verify_response_first_failing_check (fun k => "derived-" ++ k)
      (fun _ => none) sampleAcceptedResponse "k").1).mpr (by decide)

/-- C3 (amended): on a non-101 status, the body is parsed only when the
status is a client or server error; a parsed body surfaces as the typed
API error, and every other non-101 case — parse failure or a status
outside the 4xx/5xx classes, even with a parseable body — surfaces the
generic protocol-switch failure carrying the status code. -/
theorem C3_status_failure_body_recovery (dak : String → String)
    (pe : String → Option ErrorResponse) (res : UpgradeResponse)
    (key : String) (hs : res.status ≠ SWITCHING_PROTOCOLS) :
    ((isClientError res.status || isServerError res.status) = true →
      ∀ er, res.body.bind pe = some er →
        verify_response dak pe res key = .error (.api er)) ∧
    ((isClientError res.status || isServerError res.status) = true →
      res.body.bind pe = none →
      verify_response dak pe res key =
        .error (.upgradeConnection (.protocolSwitch res.status))) ∧
    ((isClientError res.status || isServerError res.status) = false →
      verify_response dak pe res key =
        .error (.upgradeConnection (.protocolSwitch res.status))) := by
  rw [verify_response_cases]
  refine ⟨?_, ?_, ?_⟩
  · intro hc er hb
    simp [hs, statusFailureError, hc, hb]
  · intro hc hb
    simp [hs, statusFailureError, hc, hb]
  · intro hc
    simp [hs, statusFailureError, hc]

/-- A structured error body as the operator would return it. -/
def sampleErrorResponse : ErrorResponse :=
  { status := "Failure", message := "operator refused", reason := "Forbidden",
    code := 403 }

/-- C3 counterexample: a non-101, non-error status (200) whose body IS
parseable still produces the generic protocol-switch failure, not the
typed API error — refuting the claim that any non-switching status with
a parseable body surfaces the typed error. -/
theorem C3_counterexample :
    ((fun _ => some sampleErrorResponse) "body" = some sampleErrorResponse) ∧
    verify_response (fun k => k) (fun _ => some sampleErrorResponse)
        { status := 200, upgradeHeader := none, connectionHeader := none,
          secWebSocketAccept := none, secWebSocketProtocol := none,
          body := some "body" } "k" =
      .error (.upgradeConnection (.protocolSwitch 200)) :=
  ⟨rfl, rfl⟩

/-- C3 witness: a 403 response with parseable body surfaces the typed
API error. -/
theorem C3_witness :
    verify_response (fun k => k) (fun _ => some sampleErrorResponse)
        { status := 403, upgradeHeader := none, connectionHeader := none,
          secWebSocketAccept := none, secWebSocketProtocol := none,
          body := some "body" } "k" =
      .error (.api sampleErrorResponse) :=
  (C3_status_failure_body_recovery (fun k => k) (fun _ => some sampleErrorResponse)
      { status := 403, upgradeHeader := none, connectionHeader := none,
        secWebSocketAccept := none, secWebSocketProtocol := none,
        body := some "body" } "k" (by decide)).1 (by decide)
    sampleErrorResponse rfl

/-! ## Claims about the session negotiator -/

/-- An operator CRD spec advertising everything. -/
def sampleOperatorSpec : MirrordOperatorSpec :=
  { license := { name := "Teams (Trial)", fingerprint := some "fp" }
    operator_version := "3.0.0"
    protocol_version := some "1.5.0"
    features := some [.proxyApi]
    copy_target_enabled := some true }

/-- A layer config requesting the copy-target feature. -/
def sampleLayerConfig : LayerConfig :=
  { copy_target := { enabled := true, scale_down := false }
    target_path := some (.named "deploy/app") }

/-- A session environment in which every external call succeeds. -/
def sampleSessionEnv : SessionEnv :=
  { newApi := .ok ()
    fetchOperator := .ok sampleOperatorSpec
    daysUntilExpiration := some 100
    closeToExpirationDays := 2
    clientCertificate := .ok (some { der := [1] })
    sessionId := 7
    parseVersion := Version.parseSimple
    mirrordVersion := ⟨3, 0, 0⟩
    copyTarget := .ok { name := "copy"
                        spec := { target := .targetless
                                  idle_ttl := some COPIED_POD_IDLE_TTL
                                  scale_down := false } }
    fetchTarget := .ok { name := "deploy.app" }
    connect := .ok () }

/-- C5: when the license expiration yields no valid days-remaining,
`create_session` returns `NoLicense` and never reaches `connect_target`
— no transport connection is opened. -/
theorem C5_expired_license_no_connect (env : SessionEnv)
    (config : LayerConfig) (operator : MirrordOperatorSpec)
    (hn : env.newApi = .ok ()) (hf : env.fetchOperator = .ok operator)
    (hd : env.daysUntilExpiration = none) :
    (create_session env config).1 = .err .noLicense ∧
    SessionOp.connectCall ∉ (create_session env config).2 := by
  unfold create_session
  rw [hn, hf, hd]
  simp

/-- C5 witness: the all-success environment with an expired license. -/
theorem C5_witness :
    (create_session { sampleSessionEnv with daysUntilExpiration := none }
        sampleLayerConfig).1 = .err .noLicense ∧
    SessionOp.connectCall ∉
      (create_session { sampleSessionEnv with daysUntilExpiration := none }
        sampleLayerConfig).2 :=
  C5_expired_license_no_connect _ sampleLayerConfig sampleOperatorSpec
    rfl rfl rfl

/-- C6: every `create_session` path that successfully creates a `Copied`
target performs the connect attempt before returning, and no returned
session carries a `Copied` target without `connect_target` having been
attempted in its trace. -/
theorem C6_copied_target_always_connected (env : SessionEnv)
    (config : LayerConfig) :
    (∀ c, env.copyTarget = .ok c →
      SessionOp.copyTargetCall ∈ (create_session env config).2 →
      SessionOp.connectCall ∈ (create_session env config).2) ∧
    (∀ info, (create_session env config).1 = .ok info →
      ∀ c, info.target = .copied c →
      SessionOp.connectCall ∈ (create_session env config).2) := by
  unfold create_session
  cases hn : env.newApi with
  | error e => simp [hn]
  | ok u =>
  cases hf : env.fetchOperator with
  | error e => simp [hn, hf]
  | ok operator =>
  cases hd : env.daysUntilExpiration with
  | none => simp [hn, hf, hd]
  | some days =>
  cases hcc : check_config config operator with
  | error e =>
      simp [hn, hf, hd, hcc]
      intro c hc h
      split_ifs at h <;> simp_all
  | ok u2 =>
  cases hp : env.parseVersion operator.operator_version with
  | none =>
      simp [hn, hf, hd, hcc, hp]
      intro c hc h
      split_ifs at h <;> simp_all
  | some opv =>
  by_cases hen : config.copy_target.enabled = true
  · cases hct : env.copyTarget with
    | error e => simp [hn, hf, hd, hcc, hp, hen, hct]
    | ok copied =>
      cases hcon : env.connect with
      | error f => cases f <;> simp [hn, hf, hd, hcc, hp, hen, hct, hcon]
      | ok u3 => simp [hn, hf, hd, hcc, hp, hen, hct, hcon]
  · cases hft : env.fetchTarget with
    | error e =>
        simp [hn, hf, hd, hcc, hp, hen, hft]
        intro c hc h
        split_ifs at h <;> simp_all
    | ok raw_target =>
      cases hcon : env.connect with
      | error f => cases f <;> simp [hn, hf, hd, hcc, hp, hen, hft, hcon]
      | ok u3 => simp [hn, hf, hd, hcc, hp, hen, hft, hcon]

/-- C6 witness: the all-success copy-target environment returns a
session whose `Copied` target had a connect attempt in the trace. -/
theorem C6_witness :
    SessionOp.connectCall ∈
      (create_session sampleSessionEnv sampleLayerConfig).2 :=
  (C6_copied_target_always_connected sampleSessionEnv sampleLayerConfig).1
    { name := "copy"
      spec := { target := .targetless
                idle_ttl := some COPIED_POD_IDLE_TTL
                scale_down := false } }
    rfl (by decide)

/-- C7: when the config requests copy-target and the operator does not
advertise it, `create_session` aborts with `UnsupportedFeature` naming
"copy target" and the operator's reported version, before any target-API
call — no copy-target, fetch-target or connect call appears. -/
theorem C7_unsupported_feature_aborts_early (env : SessionEnv)
    (config : LayerConfig) (operator : MirrordOperatorSpec)
    (hn : env.newApi = .ok ()) (hf : env.fetchOperator = .ok operator)
    (hd : ∃ d, env.daysUntilExpiration = some d)
    (hen : config.copy_target.enabled = true)
    (hop : operator.copy_target_enabled.getD false = false) :
    (create_session env config).1 =
      .err (.unsupportedFeature "copy target" operator.operator_version) ∧
    SessionOp.copyTargetCall ∉ (create_session env config).2 ∧
    SessionOp.fetchTargetCall ∉ (create_session env config).2 ∧
    SessionOp.connectCall ∉ (create_session env config).2 := by
  obtain ⟨d, hd⟩ := hd
  have hcc : check_config config operator =
      .error (.unsupportedFeature "copy target" operator.operator_version) := by
    unfold check_config
    simp [hen, hop]
  unfold create_session
  simp only [hn, hf, hd, hcc]
  refine ⟨by simp, ?_, ?_, ?_⟩
  · simp
    split_ifs <;> simp
  · simp
    split_ifs <;> simp
  · simp
    split_ifs <;> simp

/-- An operator CRD spec that does not advertise copy-target. -/
def sampleOperatorSpecNoCopy : MirrordOperatorSpec :=
  { sampleOperatorSpec with copy_target_enabled := some false }

/-- C7 witness: concrete run aborting with `UnsupportedFeature`. -/
theorem C7_witness :
    (create_session
        { sampleSessionEnv with fetchOperator := .ok sampleOperatorSpecNoCopy }
        sampleLayerConfig).1 =
      .err (.unsupportedFeature "copy target" "3.0.0") ∧
    SessionOp.copyTargetCall ∉
      (create_session
        { sampleSessionEnv with fetchOperator := .ok sampleOperatorSpecNoCopy }
        sampleLayerConfig).2 ∧
    SessionOp.fetchTargetCall ∉
      (create_session
        { sampleSessionEnv with fetchOperator := .ok sampleOperatorSpecNoCopy }
        sampleLayerConfig).2 ∧
    SessionOp.connectCall ∉
      (create_session
        { sampleSessionEnv with fetchOperator := .ok sampleOperatorSpecNoCopy }
        sampleLayerConfig).2 :=
  C7_unsupported_feature_aborts_early _ sampleLayerConfig
    sampleOperatorSpecNoCopy rfl rfl ⟨100, rfl⟩ rfl rfl

/-! ## Claims about the keep-alive supervisor and proxy lifecycle -/

/-- A 5-second window containing only diagnostic log messages never
satisfies the wait: the elapsed deadline surfaces as the timeout error. -/
theorem ping_recv_logs_deadline (l : List DaemonMessage)
    (h : ∀ m ∈ l, ∃ lm, m = .logMessage lm) :
    ping_recv l .deadline = .error (.noPong "Timeout in pong") := by
  induction l with
  | nil => rfl
  | cons m rest ih =>
      obtain ⟨lm, rfl⟩ := h m (List.mem_cons_self m rest)
      simpa [ping_recv] using ih fun x hx => h x (List.mem_cons_of_mem _ hx)

/-- C4: when a probe receives no liveness acknowledgment within the
5-second deadline (only log messages arrive), `ping` reports the timeout
error; the keep-alive loop then cancels its own token, returns that
error to its owner, and issues no probe for any later event. -/
theorem C4_keepalive_timeout_stops_probing (pre : List PingInput)
    (inp : PingInput) (post : List PingLoopEvent)
    (hpre : ∀ p ∈ pre, ping p = .ok ())
    (hsend : inp.sendOk = true)
    (hlogs : ∀ m ∈ inp.received, ∃ lm, m = .logMessage lm)
    (hdl : inp.ending = .deadline) :
    ping inp = .error (.noPong "Timeout in pong") ∧
    ping_loop_run (pre.map PingLoopEvent.tick ++ PingLoopEvent.tick inp :: post) =
      { pings := pre.length + 1
        cancelledByLoop := true
        outcome := .done (.error (.noPong "Timeout in pong")) } := by
  have hping : ping inp = .error (.noPong "Timeout in pong") := by
    simp only [ping, hsend, if_true, hdl]
    exact ping_recv_logs_deadline inp.received hlogs
  refine ⟨hping, ?_⟩
  clear hsend hlogs hdl
  revert hpre
  induction pre with
  | nil =>
      intro _
      simp [ping_loop_run, hping]
  | cons p rest ih =>
      intro hpre
      have hp : ping p = .ok () := hpre p (List.mem_cons_self p rest)
      have ih2 := ih fun q hq => hpre q (List.mem_cons_of_mem _ hq)
      simp [ping_loop_run, hp, ih2]

/-- C4 witness: one healthy probe, then an all-silent 5-second window;
the loop stops with the timeout after exactly two probes even though a
third tick is pending. -/
theorem C4_witness :
    ping { sendOk := true
           received := [DaemonMessage.logMessage ⟨.warn, "w"⟩]
           ending := .deadline } =
      .error (.noPong "Timeout in pong") ∧
    ping_loop_run
        [PingLoopEvent.tick { sendOk := true, received := [.pong], ending := .closed },
         PingLoopEvent.tick { sendOk := true
                              received := [DaemonMessage.logMessage ⟨.warn, "w"⟩]
                              ending := .deadline },
         PingLoopEvent.tick { sendOk := true, received := [.pong], ending := .closed }] =
      { pings := 2
        cancelledByLoop := true
        outcome := .done (.error (.noPong "Timeout in pong")) } :=
  C4_keepalive_timeout_stops_probing
    [{ sendOk := true, received := [.pong], ending := .closed }]
    { sendOk := true
      received := [DaemonMessage.logMessage ⟨.warn, "w"⟩]
      ending := .deadline }
    [PingLoopEvent.tick { sendOk := true, received := [.pong], ending := .closed }]
    (by intro p hp; simp at hp; subst hp; rfl)
    rfl
    (by intro m hm; simp at hm; exact ⟨⟨.warn, "w"⟩, hm⟩)
    rfl

/-- C9: every proxy run writes to standard output at most once; whenever
the detach step occurs, the trace splits as `pre ++ write :: detach ::
post` where the write is exactly the decimal bound port followed by a
blank line and no other stdout write occurs in `pre` or `post` — the
port is printed exactly once, immediately before detaching. -/
theorem C9_port_written_once_before_detach (env : ProxyEnv) :
    (((proxy_run env).2.filter ProxyOp.isStdoutWrite).length ≤ 1) ∧
    (ProxyOp.detachIO ∈ (proxy_run env).2 →
      ∃ listener pre post, env.createListenSocket = .ok listener ∧
        (proxy_run env).2 =
          pre ++ ProxyOp.stdoutWrite (toString listener.port ++ "\n\n") ::
            ProxyOp.detachIO :: post ∧
        (∀ s, ProxyOp.stdoutWrite s ∉ pre) ∧
        (∀ s, ProxyOp.stdoutWrite s ∉ post)) := by
  unfold proxy_run print_port
  cases hcfg : env.config with
  | error e => simp
  | ok config =>
  cases hlog : (if config.log_destination.isSome then env.logFileOpen
      else Except.ok ()) with
  | error e => simp [hcfg, hlog]
  | ok u1 =>
  cases haci : env.agentConnectInfo with
  | error e => simp [hcfg, hlog, haci, ProxyOp.isStdoutWrite]
  | ok aci =>
  cases hlis : env.createListenSocket with
  | error e => simp [hcfg, hlog, haci, hlis, ProxyOp.isStdoutWrite]
  | ok listener =>
  cases hcap : env.connectAndPing with
  | error e => simp [hcfg, hlog, haci, hlis, hcap, ProxyOp.isStdoutWrite]
  | ok u2 =>
  by_cases hla : env.localAddrOk = true
  · by_cases hdet : env.detachSetSidOk = true
    · have hpre : ∀ s, ProxyOp.stdoutWrite s ∉
          [ProxyOp.setRLimit, ProxyOp.connectAndPingCall,
           ProxyOp.createPingLoopCall] := by simp
      cases hipn : env.intProxyNew with
      | error e =>
          refine ⟨?_, fun _ => ⟨listener,
            [ProxyOp.setRLimit, ProxyOp.connectAndPingCall,
             ProxyOp.createPingLoopCall], [], rfl, ?_, hpre, by simp⟩⟩ <;>
            simp [hcfg, hlog, haci, hlis, hcap, hla, hdet, hipn,
              ProxyOp.isStdoutWrite]
      | ok u3 =>
          cases hipr : env.intProxyRun with
          | error e =>
              refine ⟨?_, fun _ => ⟨listener,
                [ProxyOp.setRLimit, ProxyOp.connectAndPingCall,
                 ProxyOp.createPingLoopCall], [ProxyOp.intProxyRunCall],
                rfl, ?_, hpre, by simp⟩⟩ <;>
                simp [hcfg, hlog, haci, hlis, hcap, hla, hdet, hipn, hipr,
                  ProxyOp.isStdoutWrite]
          | ok u4 =>
              cases hjoin : env.mainTaskJoin <;>
                refine ⟨?_, fun _ => ⟨listener,
                  [ProxyOp.setRLimit, ProxyOp.connectAndPingCall,
                   ProxyOp.createPingLoopCall],
                  [ProxyOp.intProxyRunCall, ProxyOp.cancelMainToken,
                   ProxyOp.joinMainTask], rfl, ?_, hpre, by simp⟩⟩ <;>
                  simp [hcfg, hlog, haci, hlis, hcap, hla, hdet, hipn, hipr,
                    hjoin, ProxyOp.isStdoutWrite]
    · refine ⟨?_, ?_⟩ <;>
        simp [hcfg, hlog, haci, hlis, hcap, hla, hdet, ProxyOp.isStdoutWrite]
  · refine ⟨?_, ?_⟩ <;>
      simp [hcfg, hlog, haci, hlis, hcap, hla, ProxyOp.isStdoutWrite]

/-- A proxy environment in which every step succeeds and the listener
binds port 5555. -/
def sampleProxyEnv : ProxyEnv :=
  { config := .ok { log_destination := none, start_idle_timeout := 60,
                    idle_timeout := 5 }
    logFileOpen := .ok ()
    rlimitOk := true
    agentConnectInfo := .ok none
    createListenSocket := .ok { port := 5555 }
    connectAndPing := .ok ()
    localAddrOk := true
    detachSetSidOk := true
    intProxyNew := .ok ()
    intProxyRun := .ok ()
    mainTaskJoin := .success }

/-- C9 witness: in the all-success run the detach occurs, so the single
stdout write "5555\n\n" immediately precedes it. -/
theorem C9_witness :
    ∃ listener pre post,
      sampleProxyEnv.createListenSocket = .ok listener ∧
      (proxy_run sampleProxyEnv).2 =
        pre ++ ProxyOp.stdoutWrite (toString listener.port ++ "\n\n") ::
          ProxyOp.detachIO :: post ∧
      (∀ s, ProxyOp.stdoutWrite s ∉ pre) ∧
      (∀ s, ProxyOp.stdoutWrite s ∉ post) :=
  (C9_port_written_once_before_detach sampleProxyEnv).2 (by decide)

end Mirrord
